import Mathlib

/-!
Shallow embedding of `src/watchdog/jws_watchdog.c` (just-api).

The watchdog is a process supervisor: it spawns a server binary, polls it
with a non-blocking `waitpid`, and restarts it on crash, subject to a
sliding-window restart counter and an exponential backoff.  The embedding
follows the C source function by function:

* `WatchdogState` mirrors the C struct of the same name (`server_pid`,
  `restart_count`, `last_restart_window_start`, `current_backoff_ms`).
* `watchdog_signal_handler`, `should_restart`, `apply_backoff`,
  `monitor_server`, `write_pid_file`, `remove_pid_file` are direct
  translations; stateful C functions become state-passing Lean functions.
* The environment (wall-clock time, `waitpid` outcomes, the value of the
  `sig_atomic_t` shutdown flag at each of its three read sites in one loop
  iteration, the pid returned by `fork`) is supplied as explicit inputs:
  `LoopInput` carries the values sampled during one iteration of `main`'s
  supervision loop, `loop_body` is the body of that loop, `run_loop`
  iterates it over an input trace, and `main_model` wires up the startup
  (arg checks, daemonize, PID file) and shutdown paths around the loop.

C `int` / `time_t` / `pid_t` values are modelled as `Int`; every value the
watchdog computes stays far below the 32-bit range (`restart_count ≤ 10`,
`current_backoff_ms ≤ 30000` after each update and `≤ 60000` transiently),
so machine overflow cannot occur on any reachable state.
-/

namespace JwsWatchdog

/-- Signal number of SIGTERM on Linux. -/
def SIGTERM : Int := 15

/-- Signal number of SIGINT on Linux. -/
def SIGINT : Int := 2

/-- `#define MAX_RESTARTS 10` -/
def MAX_RESTARTS : Int := 10

/-- `#define RESTART_WINDOW_SEC 60` -/
def RESTART_WINDOW_SEC : Int := 60

/-- `#define INITIAL_BACKOFF_MS 1000` -/
def INITIAL_BACKOFF_MS : Int := 1000

/-- `#define MAX_BACKOFF_MS 30000` -/
def MAX_BACKOFF_MS : Int := 30000

/-- The C struct `WatchdogState` (the single global `g_state`). -/
structure WatchdogState where
  server_pid : Int
  restart_count : Int
  last_restart_window_start : Int
  current_backoff_ms : Int
deriving DecidableEq, Repr

/-- What `watchdog_signal_handler` did: the value of `g_shutdown_requested`
afterwards, and the signal (if any) it sent to the child with `kill`. -/
structure HandlerResult where
  shutdown_requested : Bool
  signal_to_child : Option Int
deriving DecidableEq, Repr

/-- `watchdog_signal_handler(int signum)`: on SIGTERM or SIGINT it sets
`g_shutdown_requested = 1` and, if `g_state.server_pid > 0`, calls
`kill(g_state.server_pid, SIGTERM)`.  Inputs are the delivered signal, the
flag value before delivery, and `g_state.server_pid` at delivery time. -/
def watchdog_signal_handler (signum : Int) (shutdown_requested : Bool)
    (server_pid : Int) : HandlerResult :=
  if signum = SIGTERM ∨ signum = SIGINT then
    { shutdown_requested := true
      signal_to_child := if server_pid > 0 then some SIGTERM else none }
  else
    { shutdown_requested := shutdown_requested
      signal_to_child := none }

/-- `should_restart(void)`: if more than `RESTART_WINDOW_SEC` seconds have
elapsed since `last_restart_window_start`, reset `restart_count` to 0,
`last_restart_window_start` to `now` and `current_backoff_ms` to
`INITIAL_BACKOFF_MS`; then return 0 iff `restart_count >= MAX_RESTARTS`.
The C function reads `time(NULL)`; here `now` is an input.  Returns the
boolean result paired with the updated state. -/
def should_restart (now : Int) (s : WatchdogState) : Bool × WatchdogState :=
  let s1 :=
    if now - s.last_restart_window_start > RESTART_WINDOW_SEC then
      { s with restart_count := 0
               last_restart_window_start := now
               current_backoff_ms := INITIAL_BACKOFF_MS }
    else s
  if s1.restart_count ≥ MAX_RESTARTS then (false, s1) else (true, s1)

/-- `apply_backoff(void)`: sleep `current_backoff_ms` milliseconds, then
double `current_backoff_ms` (capped at `MAX_BACKOFF_MS`) and increment
`restart_count`.  Returns the number of milliseconds slept paired with the
updated state. -/
def apply_backoff (s : WatchdogState) : Int × WatchdogState :=
  let slept := s.current_backoff_ms
  let doubled := s.current_backoff_ms * 2
  let capped := if doubled > MAX_BACKOFF_MS then MAX_BACKOFF_MS else doubled
  (slept, { s with current_backoff_ms := capped
                   restart_count := s.restart_count + 1 })

/-- The possible outcomes of the `waitpid(server_pid, &status, WNOHANG)`
call inside `monitor_server`, as observed from the environment. -/
inductive ChildObservation where
  /-- `waitpid` returned 0: the child is still running. -/
  | stillRunning
  /-- `waitpid` returned a negative value with `errno != ECHILD`. -/
  | waitError
  /-- `waitpid` returned a negative value with `errno == ECHILD`. -/
  | noChild
  /-- the child was reaped; `WIFEXITED` with the given exit code. -/
  | exited (code : Int)
  /-- the child was reaped; terminated by the given signal. -/
  | signaled (sig : Int)
deriving DecidableEq, Repr

/-- `monitor_server(void)`: 0 = still running, -1 = stop supervising
(clean exit or wait error), 1 = child gone / crashed. -/
def monitor_server (obs : ChildObservation) : Int :=
  match obs with
  | .stillRunning => 0
  | .waitError => -1
  | .noChild => 1
  | .exited code => if code = 0 then -1 else 1
  | .signaled _ => 1

/-- Environment inputs consumed by one iteration of `main`'s supervision
loop: the value of `g_shutdown_requested` at each of its three read sites
(the `while` condition, then the two reads inside the crash branch — a
signal may arrive between any two of them), the wall clock read by
`should_restart`, the pid returned by `spawn_server`'s `fork`, and the
`waitpid` outcome seen by `monitor_server`. -/
structure LoopInput where
  flag_top : Bool
  flag_a : Bool
  flag_b : Bool
  now : Int
  spawn_pid : Int
  obs : ChildObservation
deriving DecidableEq, Repr

/-- Result of one iteration of the supervision loop body: the state
afterwards, whether the iteration executed `break`, whether it called
`spawn_server` (entry condition `server_pid <= 0`), and whether it called
`apply_backoff`. -/
structure IterOutcome where
  state : WatchdogState
  doBreak : Bool
  spawned : Bool
  backoffApplied : Bool
deriving DecidableEq, Repr

/-- The body of `main`'s `while (!g_shutdown_requested)` loop (everything
between the `while` condition and the closing `usleep(100000)`):
spawn if `server_pid <= 0`, call `monitor_server`; on a crash
(`status > 0`) clear `server_pid`, then
`if (!g_shutdown_requested && should_restart()) apply_backoff();
else if (!g_shutdown_requested) break;` — note the short-circuit: when the
flag is set at the first read, `should_restart` is never called.
On `status < 0`, `break`. -/
def loop_body (i : LoopInput) (s : WatchdogState) : IterOutcome :=
  let spawned := s.server_pid ≤ 0
  let s0 := if s.server_pid ≤ 0 then { s with server_pid := i.spawn_pid } else s
  let status := monitor_server i.obs
  if status > 0 then
    let s1 := { s0 with server_pid := -1 }
    let cond1 : Bool × WatchdogState :=
      if i.flag_a then (false, s1) else should_restart i.now s1
    if cond1.1 then
      { state := (apply_backoff cond1.2).2
        doBreak := false, spawned := spawned, backoffApplied := true }
    else if !i.flag_b then
      { state := cond1.2
        doBreak := true, spawned := spawned, backoffApplied := false }
    else
      { state := cond1.2
        doBreak := false, spawned := spawned, backoffApplied := false }
  else if status < 0 then
    { state := s0, doBreak := true, spawned := spawned, backoffApplied := false }
  else
    { state := s0, doBreak := false, spawned := spawned, backoffApplied := false }

/-- How the supervision loop ended: the `while` condition saw the shutdown
flag, the body executed `break`, or the supplied input trace ran out with
the loop still going. -/
inductive RunExit where
  | flagExit
  | broke
  | exhausted
deriving DecidableEq, Repr

/-- Accumulated result of running the supervision loop over an input
trace: final state, number of `spawn_server` calls, number of
`apply_backoff` calls, and how the loop ended. -/
structure RunResult where
  state : WatchdogState
  spawns : Nat
  backoffs : Nat
  exit : RunExit
deriving DecidableEq, Repr

/-- Iterate the supervision loop over a trace of per-iteration inputs. -/
def run_loop (s : WatchdogState) : List LoopInput → RunResult
  | [] => { state := s, spawns := 0, backoffs := 0, exit := .exhausted }
  | i :: rest =>
    if i.flag_top then
      { state := s, spawns := 0, backoffs := 0, exit := .flagExit }
    else
      let o := loop_body i s
      if o.doBreak then
        { state := o.state
          spawns := if o.spawned then 1 else 0
          backoffs := if o.backoffApplied then 1 else 0
          exit := .broke }
      else
        let r := run_loop o.state rest
        { state := r.state
          spawns := (if o.spawned then 1 else 0) + r.spawns
          backoffs := (if o.backoffApplied then 1 else 0) + r.backoffs
          exit := r.exit }

/-- `snprintf(buf, sizeof(buf), "%d\n", getpid())`: the pid as decimal
text followed by a single newline. -/
def pid_file_content (pid : Int) : String := toString pid ++ "\x0a"

/-- `write_pid_file(path)`: `open(path, O_WRONLY|O_CREAT|O_TRUNC)` then
write the pid line.  The PID file is modelled as `Option String`
(`none` = absent).  On success the file holds exactly the pid line,
whatever it held before; on failure (`open_ok = false`) it returns -1 and
the file is untouched. -/
def write_pid_file (pid : Int) (open_ok : Bool) (fs : Option String) :
    Option String × Int :=
  if open_ok then (some (pid_file_content pid), 0) else (fs, -1)

/-- `remove_pid_file(path)`: `unlink(path)`, result ignored.  If the
unlink succeeds the file is gone; otherwise it is unchanged.  Either way
nothing else happens. -/
def remove_pid_file (unlink_ok : Bool) (fs : Option String) : Option String :=
  if unlink_ok then none else fs

/-- What the code after the loop in `main` (lines 299-307) does:
`if (server_pid > 0) { kill(server_pid, SIGTERM); waitpid(..., 0); }`,
then `remove_pid_file`, then `return 0`. -/
structure ShutdownResult where
  sent_sigterm : Bool
  waited : Bool
  fs : Option String
  exit_code : Int
deriving DecidableEq, Repr

/-- The shutdown path of `main`, from loop exit to `return 0`. -/
def shutdown_path (s : WatchdogState) (unlink_ok : Bool)
    (fs : Option String) : ShutdownResult :=
  let child := s.server_pid > 0
  { sent_sigterm := child
    waited := child
    fs := remove_pid_file unlink_ok fs
    exit_code := 0 }

/-- `g_state` as initialized by `main` just before the loop:
`server_pid = -1`, `restart_count = 0`,
`last_restart_window_start = time(NULL)`,
`current_backoff_ms = INITIAL_BACKOFF_MS`. -/
def init_state (t0 : Int) : WatchdogState :=
  { server_pid := -1
    restart_count := 0
    last_restart_window_start := t0
    current_backoff_ms := INITIAL_BACKOFF_MS }

/-- Environment inputs for a whole run of `main`: outcomes of the startup
syscalls (`access`, `realpath`, `daemonize`, the PID-file `open`/`unlink`),
the foreground flag from the CLI, the start time read into
`last_restart_window_start`, and the per-iteration loop inputs. -/
structure MainEnv where
  access_ok : Bool
  realpath_ok : Bool
  foreground : Bool
  daemonize_ok : Bool
  pid_open_ok : Bool
  unlink_ok : Bool
  start_time : Int
  inputs : List LoopInput
deriving Repr

/-- Result of a run of `main`: process exit code, the PID file right
after `write_pid_file` succeeded (`none` when startup failed before or at
that point), the PID file at process exit, and the loop's run record
(`none` when startup failed before the loop). -/
structure MainResult where
  exit_code : Int
  fs_after_startup : Option String
  fs_final : Option String
  loop_run : Option RunResult
deriving Repr

/-- `main`: argument/binary checks, optional daemonize, `write_pid_file`
(failure fatal, exit 1), the supervision loop, then the shutdown path
(kill+wait a live child, `remove_pid_file`, `return 0`). -/
def main_model (pid : Int) (fs0 : Option String) (env : MainEnv) :
    MainResult :=
  if !env.access_ok then
    { exit_code := 1, fs_after_startup := none, fs_final := fs0, loop_run := none }
  else if !env.realpath_ok then
    { exit_code := 1, fs_after_startup := none, fs_final := fs0, loop_run := none }
  else if !env.foreground && !env.daemonize_ok then
    { exit_code := 1, fs_after_startup := none, fs_final := fs0, loop_run := none }
  else
    let w := write_pid_file pid env.pid_open_ok fs0
    if w.2 < 0 then
      { exit_code := 1, fs_after_startup := none, fs_final := w.1, loop_run := none }
    else
      let r := run_loop (init_state env.start_time) env.inputs
      let sd := shutdown_path r.state env.unlink_ok w.1
      { exit_code := sd.exit_code
        fs_after_startup := w.1
        fs_final := sd.fs
        loop_run := some r }

end JwsWatchdog

namespace JwsWatchdog

/-! ### Derived iteration of the backoff engine -/

/-- The state after `n` calls to `apply_backoff` starting from `s0`. -/
def backoff_states (s0 : WatchdogState) : Nat → WatchdogState
  | 0 => s0
  | n + 1 => (apply_backoff (backoff_states s0 n)).2

/-- The delay slept by the `(n+1)`-st `apply_backoff` call (the calls are
numbered from 0), with no window reset in between. -/
def applied_delay (s0 : WatchdogState) (n : Nat) : Int :=
  (apply_backoff (backoff_states s0 n)).1

theorem backoff_states_value (s0 : WatchdogState)
    (h : s0.current_backoff_ms = INITIAL_BACKOFF_MS) (n : Nat) :
    (backoff_states s0 n).current_backoff_ms =
      (if n ≤ 4 then 1000 * 2 ^ n else 30000) := by
  induction n with
  | zero => simpa [backoff_states, INITIAL_BACKOFF_MS] using h
  | succ n ih =>
    have hstep : (backoff_states s0 (n + 1)).current_backoff_ms =
        (if (backoff_states s0 n).current_backoff_ms * 2 > MAX_BACKOFF_MS
          then MAX_BACKOFF_MS
          else (backoff_states s0 n).current_backoff_ms * 2) := by
      simp [backoff_states, apply_backoff]
    rw [hstep, ih]
    by_cases hn : n ≤ 4
    · rw [if_pos hn]
      interval_cases n <;> decide
    · rw [if_neg hn, if_neg (by omega : ¬ n + 1 ≤ 4)]
      decide

theorem backoff_states_count (s0 : WatchdogState) (n : Nat) :
    (backoff_states s0 n).restart_count = s0.restart_count + n := by
  induction n with
  | zero => simp [backoff_states]
  | succ n ih =>
    simp [backoff_states, apply_backoff, ih]
    omega

/-- C2: starting from `current_backoff_ms = 1000`, the delay applied by
the `(n+1)`-st `apply_backoff` call is `1000 * 2^n` for `n ≤ 4` and
`30000` afterwards (1000, 2000, 4000, 8000, 16000, 30000, 30000, …);
each call sleeps exactly the current `current_backoff_ms` and increments
`restart_count` by one; and `current_backoff_ms` never exceeds
`MAX_BACKOFF_MS` at any point (before or after any call). -/
theorem apply_backoff_spec (s0 : WatchdogState) (n : Nat)
    (h : s0.current_backoff_ms = INITIAL_BACKOFF_MS) :
    applied_delay s0 n = (if n ≤ 4 then 1000 * 2 ^ n else 30000) ∧
    (backoff_states s0 n).current_backoff_ms ≤ MAX_BACKOFF_MS ∧
    (apply_backoff (backoff_states s0 n)).2.current_backoff_ms ≤ MAX_BACKOFF_MS ∧
    (apply_backoff (backoff_states s0 n)).1 =
      (backoff_states s0 n).current_backoff_ms ∧
    (apply_backoff (backoff_states s0 n)).2.restart_count =
      (backoff_states s0 n).restart_count + 1 := by
  have hv := backoff_states_value s0 h n
  refine ⟨?_, ?_, ?_, rfl, rfl⟩
  · simpa [applied_delay, apply_backoff] using hv
  · rw [hv]
    by_cases hn : n ≤ 4
    · rw [if_pos hn]; interval_cases n <;> decide
    · rw [if_neg hn]; decide
  · have hcap : (apply_backoff (backoff_states s0 n)).2.current_backoff_ms =
        (if (backoff_states s0 n).current_backoff_ms * 2 > MAX_BACKOFF_MS
          then MAX_BACKOFF_MS
          else (backoff_states s0 n).current_backoff_ms * 2) := by
      simp [apply_backoff]
    rw [hcap, hv]
    by_cases hn : n ≤ 4
    · rw [if_pos hn]; interval_cases n <;> decide
    · rw [if_neg hn]; decide

theorem apply_backoff_spec_witness :
    (init_state 0).current_backoff_ms = INITIAL_BACKOFF_MS ∧
    applied_delay (init_state 0) 5 = 30000 := by
  refine ⟨rfl, ?_⟩
  have h := (apply_backoff_spec (init_state 0) 5 rfl).1
  norm_num at h
  exact h

/-- C1: `should_restart` first resets the window when more than
`RESTART_WINDOW_SEC` seconds have elapsed since
`last_restart_window_start` (setting `restart_count := 0`,
`last_restart_window_start := now`,
`current_backoff_ms := INITIAL_BACKOFF_MS`), and then returns `false`
exactly when the (possibly reset) `restart_count` has reached
`MAX_RESTARTS`. -/
theorem should_restart_spec (now : Int) (s : WatchdogState) :
    (now - s.last_restart_window_start > RESTART_WINDOW_SEC →
      (should_restart now s).2.restart_count = 0 ∧
      (should_restart now s).2.last_restart_window_start = now ∧
      (should_restart now s).2.current_backoff_ms = INITIAL_BACKOFF_MS) ∧
    ((should_restart now s).1 = false ↔
      (should_restart now s).2.restart_count ≥ MAX_RESTARTS) := by
  unfold should_restart
  by_cases hC : now - s.last_restart_window_start > RESTART_WINDOW_SEC
  · simp only [if_pos hC]
    constructor
    · intro _
      split <;> simp
    · split <;> rename_i h10 <;> simp_all
  · simp only [if_neg hC]
    constructor
    · intro h
      exact absurd h hC
    · split <;> rename_i h10 <;> simp_all

theorem should_restart_spec_witness :
    ((100 : Int) - (init_state 0).last_restart_window_start >
      RESTART_WINDOW_SEC) ∧
    (should_restart 100 (init_state 0)).2.restart_count = 0 :=
  ⟨by decide, ((should_restart_spec 100 (init_state 0)).1 (by decide)).1⟩

/-- C6: if the watchdog's window started no later than the previous crash
at time `t1`, and the next crash is at time `t2` with `t2 - t1 > 60`,
then the `should_restart` call for the next crash resets
`restart_count` to 0 and `current_backoff_ms` to 1000 (and moves the
window start to `t2`), no matter how large `restart_count` was, and it
permits the restart. -/
theorem window_reset_spec (s : WatchdogState) (t1 t2 : Int)
    (hws : s.last_restart_window_start ≤ t1)
    (hgap : t2 - t1 > RESTART_WINDOW_SEC) :
    (should_restart t2 s).2.restart_count = 0 ∧
    (should_restart t2 s).2.current_backoff_ms = INITIAL_BACKOFF_MS ∧
    (should_restart t2 s).2.last_restart_window_start = t2 ∧
    (should_restart t2 s).1 = true := by
  have hC : t2 - s.last_restart_window_start > RESTART_WINDOW_SEC := by omega
  unfold should_restart
  simp only [if_pos hC]
  split <;> rename_i h10 <;> simp_all [MAX_RESTARTS]

theorem window_reset_spec_witness :
    ({ server_pid := -1, restart_count := 10,
       last_restart_window_start := 0,
       current_backoff_ms := 30000 } : WatchdogState).last_restart_window_start
        ≤ 0 ∧
    (100 : Int) - 0 > RESTART_WINDOW_SEC ∧
    (should_restart 100
      { server_pid := -1, restart_count := 10,
        last_restart_window_start := 0,
        current_backoff_ms := 30000 }).2.restart_count = 0 :=
  ⟨by decide, by decide,
    (window_reset_spec
      { server_pid := -1, restart_count := 10,
        last_restart_window_start := 0, current_backoff_ms := 30000 }
      0 100 (by decide) (by decide)).1⟩

end JwsWatchdog

namespace JwsWatchdog

theorem should_restart_preserves_server_pid (now : Int) (s : WatchdogState) :
    (should_restart now s).2.server_pid = s.server_pid := by
  simp only [should_restart]
  split_ifs <;> rfl

theorem apply_backoff_preserves_server_pid (s : WatchdogState) :
    (apply_backoff s).2.server_pid = s.server_pid := rfl

/-- C4: when the child is observed to have exited with status 0, the loop
body breaks out of the supervision loop without consulting the restart
policy or applying backoff (`restart_count`, `current_backoff_ms` and the
window start are untouched, whatever their values), and the shutdown path
then makes the supervisor exit with code 0. -/
theorem clean_exit_spec (i : LoopInput) (s : WatchdogState)
    (u : Bool) (fs : Option String)
    (hobs : i.obs = ChildObservation.exited 0) :
    (loop_body i s).doBreak = true ∧
    (loop_body i s).backoffApplied = false ∧
    (loop_body i s).state.restart_count = s.restart_count ∧
    (loop_body i s).state.current_backoff_ms = s.current_backoff_ms ∧
    (loop_body i s).state.last_restart_window_start =
      s.last_restart_window_start ∧
    (shutdown_path (loop_body i s).state u fs).exit_code = 0 := by
  simp only [loop_body, hobs, monitor_server, shutdown_path]
  norm_num
  split_ifs <;> simp

theorem clean_exit_spec_witness :
    (({ flag_top := false, flag_a := false, flag_b := false, now := 0,
        spawn_pid := 55, obs := ChildObservation.exited 0 } :
        LoopInput).obs = ChildObservation.exited 0) ∧
    (loop_body
      { flag_top := false, flag_a := false, flag_b := false, now := 0,
        spawn_pid := 55, obs := ChildObservation.exited 0 }
      (init_state 0)).doBreak = true :=
  ⟨rfl,
    (clean_exit_spec
      { flag_top := false, flag_a := false, flag_b := false, now := 0,
        spawn_pid := 55, obs := ChildObservation.exited 0 }
      (init_state 0) true none rfl).1⟩

/-- C9 counterexample: with a child recorded (pid 1234), delivering SIGINT
makes the handler send SIGTERM to the child — not the signal that was
received — so the handler does not forward "the same signal". -/
theorem handler_forward_counterexample :
    (watchdog_signal_handler SIGINT false 1234).signal_to_child =
      some SIGTERM ∧
    ¬ (watchdog_signal_handler SIGINT false 1234).signal_to_child =
      some SIGINT := by
  decide

/-- C9 amended: for every termination signal (SIGTERM or SIGINT) received
while a child is recorded, the handler sets the shutdown flag and sends
SIGTERM to the child — always SIGTERM, regardless of which of the two
signals was received. -/
theorem handler_spec (signum : Int) (f : Bool) (pid : Int)
    (hsig : signum = SIGTERM ∨ signum = SIGINT) (hpid : 0 < pid) :
    (watchdog_signal_handler signum f pid).shutdown_requested = true ∧
    (watchdog_signal_handler signum f pid).signal_to_child =
      some SIGTERM := by
  unfold watchdog_signal_handler
  rw [if_pos hsig]
  simp [hpid]

theorem handler_spec_witness :
    ((2 : Int) = SIGTERM ∨ (2 : Int) = SIGINT) ∧ (0 : Int) < 7 ∧
    (watchdog_signal_handler 2 false 7).signal_to_child = some SIGTERM :=
  ⟨Or.inr (by decide), by decide,
    (handler_spec 2 false 7 (Or.inr (by decide)) (by decide)).2⟩

/-- C8 counterexample: from the freshly initialized state, one loop
iteration in which the spawned child (pid 1234) is observed to exit
cleanly (status 0) — so the child has been reaped by `waitpid` — breaks
out of the loop with `server_pid` still 1234, not the "none" sentinel;
the shutdown path then even sends SIGTERM to the stale pid. -/
theorem child_pid_counterexample :
    (loop_body
      { flag_top := false, flag_a := false, flag_b := false, now := 0,
        spawn_pid := 1234, obs := ChildObservation.exited 0 }
      (init_state 0)).doBreak = true ∧
    (loop_body
      { flag_top := false, flag_a := false, flag_b := false, now := 0,
        spawn_pid := 1234, obs := ChildObservation.exited 0 }
      (init_state 0)).state.server_pid = 1234 ∧
    (shutdown_path
      (loop_body
        { flag_top := false, flag_a := false, flag_b := false, now := 0,
          spawn_pid := 1234, obs := ChildObservation.exited 0 }
        (init_state 0)).state true none).sent_sigterm = true := by
  decide

/-- C8 amended: on the crash path (`monitor_server` returns 1: nonzero
exit status, killed by a signal, or ECHILD) the loop body does reset
`server_pid` to the -1 "none" sentinel; but on every other path — still
running, clean status-0 exit (where the child has just been reaped), or
`waitpid` error — `server_pid` keeps its value (the spawn pid if a spawn
happened this iteration, the previous value otherwise).  In particular,
after a clean child exit has been observed and reaped, the stale pid
remains recorded through the shutdown path. -/
theorem child_pid_tracking (i : LoopInput) (s : WatchdogState) :
    (monitor_server i.obs = 1 → (loop_body i s).state.server_pid = -1) ∧
    (monitor_server i.obs ≠ 1 →
      (loop_body i s).state.server_pid =
        (if s.server_pid ≤ 0 then i.spawn_pid else s.server_pid)) := by
  constructor
  · intro h
    simp only [loop_body, h]
    norm_num
    split_ifs <;>
      simp [apply_backoff_preserves_server_pid,
        should_restart_preserves_server_pid]
  · intro h
    have h0 : monitor_server i.obs = 0 ∨ monitor_server i.obs = -1 := by
      rcases hco : i.obs with _ | _ | _ | code | sig <;> rw [hco] at h
      · exact Or.inl rfl
      · exact Or.inr rfl
      · exact absurd rfl h
      · by_cases hc : code = 0
        · right
          simp [monitor_server, hc]
        · exact absurd (by simp [monitor_server, hc]) h
      · exact absurd rfl h
    simp only [loop_body]
    rcases h0 with h0 | h0 <;> rw [h0] <;> norm_num <;> split_ifs <;> rfl

theorem child_pid_tracking_witness :
    monitor_server (ChildObservation.exited 1) = 1 ∧
    (loop_body
      { flag_top := false, flag_a := false, flag_b := false, now := 0,
        spawn_pid := 1234, obs := ChildObservation.exited 1 }
      (init_state 0)).state.server_pid = -1 :=
  ⟨by decide,
    (child_pid_tracking
      { flag_top := false, flag_a := false, flag_b := false, now := 0,
        spawn_pid := 1234, obs := ChildObservation.exited 1 }
      (init_state 0)).1 (by decide)⟩

end JwsWatchdog

namespace JwsWatchdog

theorem should_restart_no_reset_refuse (now : Int) (s : WatchdogState)
    (hwin : now - s.last_restart_window_start ≤ RESTART_WINDOW_SEC)
    (hcnt : s.restart_count ≥ MAX_RESTARTS) :
    should_restart now s = (false, s) := by
  unfold should_restart
  rw [if_neg (not_lt.mpr hwin), if_pos hcnt]

theorem should_restart_no_reset_allow (now : Int) (s : WatchdogState)
    (hwin : now - s.last_restart_window_start ≤ RESTART_WINDOW_SEC)
    (hcnt : s.restart_count < MAX_RESTARTS) :
    should_restart now s = (true, s) := by
  unfold should_restart
  rw [if_neg (not_lt.mpr hwin), if_neg (not_le.mpr hcnt)]

/-- Crash observed, no shutdown requested, restart budget exhausted and no
window reset due: the loop body breaks, without backoff, leaving the
counter, backoff and window untouched and `server_pid` cleared. -/
theorem loop_body_crash_break (i : LoopInput) (s : WatchdogState)
    (hfa : i.flag_a = false) (hfb : i.flag_b = false)
    (hobs : monitor_server i.obs = 1)
    (hwin : i.now - s.last_restart_window_start ≤ RESTART_WINDOW_SEC)
    (hcnt : s.restart_count ≥ MAX_RESTARTS) :
    (loop_body i s).doBreak = true ∧
    (loop_body i s).backoffApplied = false ∧
    (loop_body i s).state.server_pid = -1 ∧
    (loop_body i s).state.restart_count = s.restart_count ∧
    (loop_body i s).state.current_backoff_ms = s.current_backoff_ms ∧
    (loop_body i s).state.last_restart_window_start =
      s.last_restart_window_start := by
  have h1 : should_restart i.now
      { server_pid := -1, restart_count := s.restart_count,
        last_restart_window_start := s.last_restart_window_start,
        current_backoff_ms := s.current_backoff_ms } =
      (false,
      { server_pid := -1, restart_count := s.restart_count,
        last_restart_window_start := s.last_restart_window_start,
        current_backoff_ms := s.current_backoff_ms }) :=
    should_restart_no_reset_refuse _ _ (by simpa using hwin)
      (by simpa using hcnt)
  by_cases hsp : s.server_pid ≤ 0 <;>
    simp [loop_body, hobs, hfa, hfb, hsp, h1]

/-- Crash observed, no shutdown requested, restart budget remaining and no
window reset due: the loop body applies backoff and continues, with the
counter incremented, `server_pid` cleared and the window untouched. -/
theorem loop_body_crash_continue (i : LoopInput) (s : WatchdogState)
    (hfa : i.flag_a = false)
    (hobs : monitor_server i.obs = 1)
    (hwin : i.now - s.last_restart_window_start ≤ RESTART_WINDOW_SEC)
    (hcnt : s.restart_count < MAX_RESTARTS) :
    (loop_body i s).doBreak = false ∧
    (loop_body i s).backoffApplied = true ∧
    (loop_body i s).state.server_pid = -1 ∧
    (loop_body i s).state.restart_count = s.restart_count + 1 ∧
    (loop_body i s).state.last_restart_window_start =
      s.last_restart_window_start := by
  have h1 : should_restart i.now
      { server_pid := -1, restart_count := s.restart_count,
        last_restart_window_start := s.last_restart_window_start,
        current_backoff_ms := s.current_backoff_ms } =
      (true,
      { server_pid := -1, restart_count := s.restart_count,
        last_restart_window_start := s.last_restart_window_start,
        current_backoff_ms := s.current_backoff_ms }) :=
    should_restart_no_reset_allow _ _ (by simpa using hwin)
      (by simpa using hcnt)
  by_cases hsp : s.server_pid ≤ 0 <;>
    simp [loop_body, hobs, hfa, hsp, h1, apply_backoff]

/-- C10: when a crash is observed, shutdown was never requested during the
iteration, and the restart policy refuses (the counter has reached
`MAX_RESTARTS` with no window reset due), the loop body breaks with
`server_pid` cleared; the shutdown path then signals nothing, removes the
PID file, and exits with code 0 — the exit code of a graceful shutdown —
although no clean child exit or operator signal occurred. -/
theorem policy_refusal_spec (i : LoopInput) (s : WatchdogState)
    (u : Bool) (fs : Option String)
    (hfa : i.flag_a = false) (hfb : i.flag_b = false)
    (hobs : monitor_server i.obs = 1)
    (hwin : i.now - s.last_restart_window_start ≤ RESTART_WINDOW_SEC)
    (hcnt : s.restart_count ≥ MAX_RESTARTS) :
    (loop_body i s).doBreak = true ∧
    (loop_body i s).backoffApplied = false ∧
    (loop_body i s).state.server_pid = -1 ∧
    (shutdown_path (loop_body i s).state u fs).sent_sigterm = false ∧
    (shutdown_path (loop_body i s).state u fs).exit_code = 0 ∧
    (u = true → (shutdown_path (loop_body i s).state u fs).fs = none) := by
  obtain ⟨hbrk, hbo, hpid, -, -, -⟩ :=
    loop_body_crash_break i s hfa hfb hobs hwin hcnt
  refine ⟨hbrk, hbo, hpid, ?_, ?_, ?_⟩
  · simp [shutdown_path, hpid]
  · simp [shutdown_path]
  · intro hu
    simp [shutdown_path, remove_pid_file, hu]

theorem policy_refusal_spec_witness :
    (({ flag_top := false, flag_a := false, flag_b := false, now := 5,
        spawn_pid := 99, obs := ChildObservation.exited 1 } :
        LoopInput).flag_a = false) ∧
    monitor_server (ChildObservation.exited 1) = 1 ∧
    (({ server_pid := -1, restart_count := 10,
        last_restart_window_start := 0, current_backoff_ms := 30000 } :
        WatchdogState).restart_count ≥ MAX_RESTARTS) ∧
    (loop_body
      { flag_top := false, flag_a := false, flag_b := false, now := 5,
        spawn_pid := 99, obs := ChildObservation.exited 1 }
      { server_pid := -1, restart_count := 10,
        last_restart_window_start := 0,
        current_backoff_ms := 30000 }).doBreak = true :=
  ⟨rfl, by decide, by decide,
    (policy_refusal_spec
      { flag_top := false, flag_a := false, flag_b := false, now := 5,
        spawn_pid := 99, obs := ChildObservation.exited 1 }
      { server_pid := -1, restart_count := 10,
        last_restart_window_start := 0, current_backoff_ms := 30000 }
      true none rfl rfl (by decide) (by decide) (by decide)).1⟩

/-- C5: a termination signal (SIGTERM or SIGINT) delivered while a child
is running makes the handler set the shutdown flag and send SIGTERM to the
child; once the flag is set, every subsequent iteration of the loop exits
at the `while` condition, so no spawn and no backoff happens and the state
is untouched; the shutdown path then signals the still-recorded child,
blocks in `waitpid` for it, removes the PID file, and exits with code 0 —
whatever restart budget remained. -/
theorem signal_shutdown_spec (signum : Int) (f : Bool) (s : WatchdogState)
    (l : List LoopInput) (u : Bool) (fs : Option String)
    (hsig : signum = SIGTERM ∨ signum = SIGINT)
    (hchild : s.server_pid > 0)
    (hflags : ∀ i ∈ l, i.flag_top = true) :
    (watchdog_signal_handler signum f s.server_pid).shutdown_requested =
      true ∧
    (watchdog_signal_handler signum f s.server_pid).signal_to_child =
      some SIGTERM ∧
    (run_loop s l).spawns = 0 ∧
    (run_loop s l).backoffs = 0 ∧
    (run_loop s l).state = s ∧
    (shutdown_path s u fs).sent_sigterm = true ∧
    (shutdown_path s u fs).waited = true ∧
    (shutdown_path s u fs).exit_code = 0 ∧
    (u = true → (shutdown_path s u fs).fs = none) := by
  have hrun : run_loop s l =
      { state := s, spawns := 0, backoffs := 0,
        exit := if l = [] then RunExit.exhausted else RunExit.flagExit } := by
    cases l with
    | nil => simp [run_loop]
    | cons i rest =>
      have := hflags i (List.mem_cons_self i rest)
      simp [run_loop, this]
  unfold watchdog_signal_handler
  rw [if_pos hsig]
  refine ⟨rfl, by simp [hchild], ?_, ?_, ?_, ?_, ?_, ?_, ?_⟩
  · rw [hrun]
  · rw [hrun]
  · rw [hrun]
  · simp [shutdown_path, hchild]
  · simp [shutdown_path, hchild]
  · simp [shutdown_path]
  · intro hu
    simp [shutdown_path, remove_pid_file, hu]

theorem signal_shutdown_spec_witness :
    ((15 : Int) = SIGTERM ∨ (15 : Int) = SIGINT) ∧
    (({ server_pid := 77, restart_count := 0,
        last_restart_window_start := 0, current_backoff_ms := 1000 } :
        WatchdogState).server_pid > 0) ∧
    (shutdown_path
      { server_pid := 77, restart_count := 0,
        last_restart_window_start := 0, current_backoff_ms := 1000 }
      true none).waited = true :=
  ⟨Or.inl (by decide), by decide,
    ((((signal_shutdown_spec 15 false
      { server_pid := 77, restart_count := 0,
        last_restart_window_start := 0, current_backoff_ms := 1000 }
      [] true none (Or.inl (by decide)) (by decide)
      (by intro i hi; cases hi)).2).2).2).2.2.2.1⟩

end JwsWatchdog

namespace JwsWatchdog

/-- C7: startup/shutdown lifecycle of the PID file in `main`.  With the
startup checks passing, a successful `write_pid_file` leaves the file
holding exactly the pid as decimal text plus one newline — whatever the
file held before; every run from there on ends by attempting the unlink
(the supervisor exits 0 whether or not the unlink succeeds, so a removal
failure is never fatal, and a successful unlink leaves the file absent);
and a failing `write_pid_file` makes `main` return 1 without entering the
loop. -/
theorem pid_file_spec (pid : Int) (fs0 : Option String) (env : MainEnv)
    (ha : env.access_ok = true) (hr : env.realpath_ok = true)
    (hd : env.foreground = false → env.daemonize_ok = true) :
    (env.pid_open_ok = true →
      (main_model pid fs0 env).fs_after_startup =
        some (pid_file_content pid) ∧
      pid_file_content pid = toString pid ++ "\x0a" ∧
      (main_model pid fs0 env).exit_code = 0 ∧
      (env.unlink_ok = true → (main_model pid fs0 env).fs_final = none)) ∧
    (env.pid_open_ok = false →
      (main_model pid fs0 env).exit_code = 1 ∧
      (main_model pid fs0 env).loop_run = none) := by
  have hdaem : (!env.foreground && !env.daemonize_ok) = false := by
    cases hf : env.foreground with
    | true => simp
    | false => simp [hd hf]
  constructor
  · intro hopen
    refine ⟨?_, rfl, ?_, ?_⟩
    · simp [main_model, ha, hr, hdaem, write_pid_file, hopen]
    · simp [main_model, ha, hr, hdaem, write_pid_file, hopen, shutdown_path]
    · intro hu
      simp [main_model, ha, hr, hdaem, write_pid_file, hopen,
        shutdown_path, remove_pid_file, hu]
  · intro hopen
    constructor <;>
      simp [main_model, ha, hr, hdaem, write_pid_file, hopen]

theorem pid_file_spec_witness :
    (({ access_ok := true, realpath_ok := true, foreground := true,
        daemonize_ok := true, pid_open_ok := true, unlink_ok := true,
        start_time := 0, inputs := [] } : MainEnv).access_ok = true) ∧
    (main_model 42 (some "stale")
      { access_ok := true, realpath_ok := true, foreground := true,
        daemonize_ok := true, pid_open_ok := true, unlink_ok := true,
        start_time := 0, inputs := [] }).fs_after_startup =
      some (pid_file_content 42) :=
  ⟨rfl,
    ((pid_file_spec 42 (some "stale")
      { access_ok := true, realpath_ok := true, foreground := true,
        daemonize_ok := true, pid_open_ok := true, unlink_ok := true,
        start_time := 0, inputs := [] }
      rfl rfl (by intro h; exact rfl)).1 rfl).1⟩

/-- A loop-iteration input representing a crash observed inside the
current 60-second window, with no shutdown requested: the shutdown flag
reads false at all three read sites, `monitor_server` reports a crash,
and the wall clock is at most `RESTART_WINDOW_SEC` past the window
start `ws`. -/
def crash_input (ws : Int) (i : LoopInput) : Prop :=
  i.flag_top = false ∧ i.flag_a = false ∧ i.flag_b = false ∧
  monitor_server i.obs = 1 ∧ i.now - ws ≤ RESTART_WINDOW_SEC

theorem run_crash_aux (ws : Int) :
    ∀ (l : List LoopInput) (c : Nat) (s : WatchdogState),
    (∀ i ∈ l, crash_input ws i) →
    s.last_restart_window_start = ws →
    s.restart_count = (c : Int) →
    c ≤ 10 →
    ((l.length ≤ 10 - c →
      (run_loop s l).backoffs = l.length ∧
      (run_loop s l).state.restart_count = (c : Int) + l.length ∧
      (run_loop s l).exit = RunExit.exhausted) ∧
    (10 - c < l.length →
      (run_loop s l).backoffs = 10 - c ∧
      (run_loop s l).state.restart_count = (10 : Int) ∧
      (run_loop s l).exit = RunExit.broke)) := by
  intro l
  induction l with
  | nil =>
    intro c s _ _ hcount _
    constructor
    · intro _
      simp [run_loop, hcount]
    · intro h
      simp only [List.length_nil] at h
      omega
  | cons i rest ih =>
    intro c s hc hws hcount hle
    obtain ⟨hft, hfa, hfb, hobs, hwin⟩ := hc i (List.mem_cons_self i rest)
    have hwin' : i.now - s.last_restart_window_start ≤ RESTART_WINDOW_SEC :=
      by rw [hws]; exact hwin
    by_cases hmax : c = 10
    · -- The counter has reached the maximum: the iteration breaks.
      subst hmax
      have hcnt : s.restart_count ≥ MAX_RESTARTS := by
        rw [hcount]; simp [MAX_RESTARTS]
      obtain ⟨hbrk, hbo, -, hrc, -, -⟩ :=
        loop_body_crash_break i s hfa hfb hobs hwin' hcnt
      constructor
      · intro h
        simp at h
      · intro _
        simp [run_loop, hft, hbrk, hbo, hrc, hcount]
    · -- Budget remains: the iteration applies backoff and continues.
      have hcnt : s.restart_count < MAX_RESTARTS := by
        rw [hcount]
        simp only [MAX_RESTARTS]
        omega
      obtain ⟨hbrk, hbo, -, hrc, hw2⟩ :=
        loop_body_crash_continue i s hfa hobs hwin' hcnt
      have hrest := ih (c + 1) (loop_body i s).state
        (fun j hj => hc j (List.mem_cons_of_mem i hj))
        (by rw [hw2, hws])
        (by rw [hrc, hcount]; push_cast; ring)
        (by omega)
      constructor
      · intro h
        have h' : rest.length ≤ 10 - (c + 1) := by
          simp at h
          omega
        obtain ⟨hb, hcnt2, hex⟩ := hrest.1 h'
        simp [run_loop, hft, hbrk, hbo, hb, hcnt2, hex]
        constructor
        · omega
        · ring
      · intro h
        have h' : 10 - (c + 1) < rest.length := by
          simp at h
          omega
        obtain ⟨hb, hcnt2, hex⟩ := hrest.2 h'
        simp [run_loop, hft, hbrk, hbo, hb, hcnt2, hex]
        omega

/-- C3: from the freshly initialized state, any trace of 11 crash
iterations all inside the initial 60-second window (no window reset)
performs exactly 10 `apply_backoff` calls — `restart_count` rising by one
per restart to exactly 10 — and on the 11th crash the policy refuses and
the loop `break`s: no further restart is attempted and the supervision
loop terminates. -/
theorem crash_window_spec (t0 : Int) (l : List LoopInput)
    (hlen : l.length = 11)
    (hc : ∀ i ∈ l, crash_input t0 i) :
    (run_loop (init_state t0) l).backoffs = 10 ∧
    (run_loop (init_state t0) l).state.restart_count = 10 ∧
    (run_loop (init_state t0) l).exit = RunExit.broke := by
  have h := run_crash_aux t0 l 0 (init_state t0) hc rfl rfl (by omega)
  have h2 := h.2 (by omega)
  exact ⟨by simpa using h2.1, h2.2.1, h2.2.2⟩

theorem crash_window_spec_witness :
    (List.replicate 11
      ({ flag_top := false, flag_a := false, flag_b := false, now := 0,
         spawn_pid := 1234, obs := ChildObservation.exited 1 } :
         LoopInput)).length = 11 ∧
    (run_loop (init_state 0)
      (List.replicate 11
        { flag_top := false, flag_a := false, flag_b := false, now := 0,
          spawn_pid := 1234, obs := ChildObservation.exited 1 })).backoffs
      = 10 := by
  refine ⟨by simp, ?_⟩
  refine (crash_window_spec 0 _ (by simp) ?_).1
  intro i hi
  rw [List.eq_of_mem_replicate hi]
  exact ⟨rfl, rfl, rfl, by decide, by decide⟩

end JwsWatchdog
